import Mathlib

/-!
Verification development for the custom-entity composition engine of the
hahomematic repository: the device-group schema table, channel rebasing,
the custom-entity factory, and the light and lock behavior classes
(`hahomematic/custom_platforms/entity_definition.py`,
`hahomematic/custom_platforms/light.py`, `hahomematic/custom_platforms/lock.py`).

Python dicts become association lists (insertion order preserved), Python
ints become `Int`, floats become `Rat` (exact rational arithmetic), raised
exceptions become `Except String`.
-/

namespace Hahomematic

/-- A `dict[str, str]` mapping field names to parameter names. -/
abbrev FieldMap := List (String × String)

/-- A `dict[int, dict[str, str]]` mapping channel offsets to field maps. -/
abbrev ChannelFields := List (Int × FieldMap)

/-- An `additional_entities` table: `dict[int, tuple[str, ...]]` mapping channel
offsets to parameter-name tuples (the table under `ED_DEVICE_DEFINITIONS` uses
only `int` keys). -/
abbrev AdditionalEntities := List (Int × List String)

/-- One `ED_DEVICE_GROUP` dict of `entity_definition`: optional dict keys are
`Option` fields (`none` = key absent). -/
structure DeviceGroup where
  primary_channel : Int
  secondary_channels : Option (List Int) := none
  repeatable_fields : FieldMap := []
  visible_repeatable_fields : FieldMap := []
  fields : Option ChannelFields := none
  visible_fields : Option ChannelFields := none
  deriving DecidableEq, Repr

/-- One entry of `entity_definition[ED_DEVICE_DEFINITIONS]`: the device group,
the optional `ED_ADDITIONAL_ENTITIES` dict (absent = `[]`, matching the
`.get(ED_ADDITIONAL_ENTITIES, {})` read in `_get_device_entities`), and the
optional `ED_INCLUDE_DEFAULT_ENTITIES` flag (default `True`). -/
structure DeviceDef where
  device_group : DeviceGroup
  additional_entities : AdditionalEntities := []
  include_default_entities : Bool := true
  deriving DecidableEq, Repr

/-- The `EntityDefinition` enum of `entity_definition.py`. -/
inductive EntityDefinition where
  | IP_COVER
  | IP_DIMMER
  | IP_GARAGE
  | IP_SWITCH
  | IP_FIXED_COLOR_LIGHT
  | IP_SIMPLE_FIXED_COLOR_LIGHT
  | IP_LOCK
  | IP_THERMOSTAT
  | IP_THERMOSTAT_GROUP
  | IP_SIREN
  | RF_COVER
  | RF_DIMMER
  | RF_DIMMER_COLOR
  | RF_DIMMER_COLOR_TEMP
  | RF_DIMMER_WITH_VIRT_CHANNEL
  | RF_LOCK
  | RF_THERMOSTAT
  | RF_THERMOSTAT_GROUP
  | RF_SIREN
  | RF_SWITCH
  | SIMPLE_RF_THERMOSTAT
  deriving DecidableEq, Repr

/-- `entity_definition[ED_DEVICE_DEFINITIONS]`, transcribed entry by entry from
`entity_definition.py` (field-name constants inlined to their string values,
e.g. `FIELD_COLOR_LEVEL = "color_temp"`).  `EntityDefinition.RF_SIREN` is a
member of the enum but has no entry in the table, hence `none`. -/
def device_definitions : EntityDefinition → Option DeviceDef
  | .IP_COVER => some
      { device_group :=
          { primary_channel := 1
            repeatable_fields :=
              [("level", "LEVEL"), ("level_2", "LEVEL_2"), ("stop", "STOP")]
            fields := some
              [(0, [("direction", "ACTIVITY_STATE"), ("channel_level", "LEVEL"),
                    ("channel_level_2", "LEVEL_2")])] } }
  | .IP_DIMMER => some
      { device_group :=
          { primary_channel := 1
            secondary_channels := some [2, 3]
            repeatable_fields :=
              [("level", "LEVEL"), ("on_time_value", "ON_TIME"),
               ("ramp_time_value", "RAMP_TIME")]
            visible_fields := some [(0, [("channel_level", "LEVEL")])] } }
  | .IP_GARAGE => some
      { device_group :=
          { primary_channel := 0
            repeatable_fields :=
              [("door_command", "DOOR_COMMAND"), ("section", "SECTION")]
            visible_repeatable_fields := [("door_state", "DOOR_STATE")] }
        additional_entities := [(1, ["STATE"])] }
  | .IP_FIXED_COLOR_LIGHT => some
      { device_group :=
          { primary_channel := 1
            secondary_channels := some [2, 3]
            repeatable_fields :=
              [("color", "COLOR"), ("level", "LEVEL"),
               ("on_time_unit", "DURATION_UNIT"), ("on_time_value", "DURATION_VALUE"),
               ("ramp_time_unit", "RAMP_TIME_UNIT"), ("ramp_time_value", "RAMP_TIME_VALUE")]
            visible_fields := some
              [(0, [("channel_color", "COLOR"), ("channel_level", "LEVEL")])] } }
  | .IP_SIMPLE_FIXED_COLOR_LIGHT => some
      { device_group :=
          { primary_channel := 0
            repeatable_fields :=
              [("color", "COLOR"), ("level", "LEVEL"),
               ("on_time_unit", "DURATION_UNIT"), ("on_time_value", "DURATION_VALUE"),
               ("ramp_time_unit", "RAMP_TIME_UNIT"), ("ramp_time_value", "RAMP_TIME_VALUE")] } }
  | .IP_SWITCH => some
      { device_group :=
          { primary_channel := 1
            secondary_channels := some [2, 3]
            repeatable_fields := [("state", "STATE"), ("on_time_value", "ON_TIME")]
            visible_fields := some [(0, [("channel_state", "STATE")])] }
        additional_entities :=
          [(4, ["CURRENT", "ENERGY_COUNTER", "FREQUENCY", "POWER",
                "ACTUAL_TEMPERATURE", "VOLTAGE"])] }
  | .IP_LOCK => some
      { device_group :=
          { primary_channel := 1
            repeatable_fields :=
              [("direction", "ACTIVITY_STATE"), ("lock_state", "LOCK_STATE"),
               ("lock_target_level", "LOCK_TARGET_LEVEL")]
            fields := some [(0, [("error", "ERROR_JAMMED")])] } }
  | .IP_SIREN => some
      { device_group :=
          { primary_channel := 3
            repeatable_fields :=
              [("acoustic_alarm_active", "ACOUSTIC_ALARM_ACTIVE"),
               ("optical_alarm_active", "OPTICAL_ALARM_ACTIVE"),
               ("acoustic_alarm_selection", "ACOUSTIC_ALARM_SELECTION"),
               ("optical_alarm_selection", "OPTICAL_ALARM_SELECTION"),
               ("duration", "DURATION_VALUE"), ("duration_unit", "DURATION_UNIT")] } }
  | .IP_THERMOSTAT => some
      { device_group :=
          { primary_channel := 0
            repeatable_fields :=
              [("active_profile", "ACTIVE_PROFILE"), ("boost_mode", "BOOST_MODE"),
               ("control_mode", "CONTROL_MODE"), ("heating_cooling", "HEATING_COOLING"),
               ("party_mode", "PARTY_MODE"), ("setpoint", "SET_POINT_TEMPERATURE"),
               ("set_point_mode", "SET_POINT_MODE"),
               ("temperature_maximum", "TEMPERATURE_MAXIMUM"),
               ("temperature_minimum", "TEMPERATURE_MINIMUM")]
            visible_repeatable_fields :=
              [("humidity", "HUMIDITY"), ("temperature", "ACTUAL_TEMPERATURE")]
            visible_fields := some
              [(0, [("level", "LEVEL")]), (8, [("state", "STATE")])] } }
  | .IP_THERMOSTAT_GROUP => some
      { device_group :=
          { primary_channel := 0
            repeatable_fields :=
              [("active_profile", "ACTIVE_PROFILE"), ("boost_mode", "BOOST_MODE"),
               ("control_mode", "CONTROL_MODE"), ("heating_cooling", "HEATING_COOLING"),
               ("party_mode", "PARTY_MODE"), ("setpoint", "SET_POINT_TEMPERATURE"),
               ("set_point_mode", "SET_POINT_MODE"),
               ("temperature_maximum", "TEMPERATURE_MAXIMUM"),
               ("temperature_minimum", "TEMPERATURE_MINIMUM")]
            visible_repeatable_fields :=
              [("humidity", "HUMIDITY"), ("temperature", "ACTUAL_TEMPERATURE")]
            fields := some [(0, [("level", "LEVEL")]), (3, [("state", "STATE")])] }
        include_default_entities := false }
  | .RF_COVER => some
      { device_group :=
          { primary_channel := 0
            repeatable_fields :=
              [("direction", "DIRECTION"), ("level", "LEVEL"),
               ("level_2", "LEVEL_SLATS"), ("stop", "STOP")] } }
  | .RF_DIMMER => some
      { device_group :=
          { primary_channel := 0
            repeatable_fields :=
              [("level", "LEVEL"), ("on_time_value", "ON_TIME"),
               ("ramp_time_value", "RAMP_TIME")] } }
  | .RF_DIMMER_COLOR => some
      { device_group :=
          { primary_channel := 0
            repeatable_fields :=
              [("level", "LEVEL"), ("on_time_value", "ON_TIME"),
               ("ramp_time_value", "RAMP_TIME")]
            fields := some
              [(1, [("color", "COLOR")]), (2, [("program", "PROGRAM")])] } }
  | .RF_DIMMER_COLOR_TEMP => some
      { device_group :=
          { primary_channel := 0
            repeatable_fields :=
              [("level", "LEVEL"), ("on_time_value", "ON_TIME"),
               ("ramp_time_value", "RAMP_TIME")]
            fields := some [(1, [("color_temp", "LEVEL")])] } }
  | .RF_DIMMER_WITH_VIRT_CHANNEL => some
      { device_group :=
          { primary_channel := 0
            secondary_channels := some [1, 2]
            repeatable_fields :=
              [("level", "LEVEL"), ("on_time_value", "ON_TIME"),
               ("ramp_time_value", "RAMP_TIME")] } }
  | .RF_LOCK => some
      { device_group :=
          { primary_channel := 0
            repeatable_fields :=
              [("direction", "DIRECTION"), ("open", "OPEN"),
               ("state", "STATE"), ("error", "ERROR")] } }
  | .RF_THERMOSTAT => some
      { device_group :=
          { primary_channel := 0
            repeatable_fields :=
              [("auto_mode", "AUTO_MODE"), ("boost_mode", "BOOST_MODE"),
               ("comfort_mode", "COMFORT_MODE"), ("control_mode", "CONTROL_MODE"),
               ("lowering_mode", "LOWERING_MODE"), ("manu_mode", "MANU_MODE"),
               ("setpoint", "SET_TEMPERATURE"),
               ("temperature_maximum", "TEMPERATURE_MAXIMUM"),
               ("temperature_minimum", "TEMPERATURE_MINIMUM")]
            visible_repeatable_fields :=
              [("humidity", "ACTUAL_HUMIDITY"), ("temperature", "ACTUAL_TEMPERATURE")]
            visible_fields := some [(0, [("valve_state", "VALVE_STATE")])] } }
  | .RF_THERMOSTAT_GROUP => some
      { device_group :=
          { primary_channel := 0
            repeatable_fields :=
              [("auto_mode", "AUTO_MODE"), ("boost_mode", "BOOST_MODE"),
               ("comfort_mode", "COMFORT_MODE"), ("control_mode", "CONTROL_MODE"),
               ("lowering_mode", "LOWERING_MODE"), ("manu_mode", "MANU_MODE"),
               ("setpoint", "SET_TEMPERATURE"),
               ("temperature_maximum", "TEMPERATURE_MAXIMUM"),
               ("temperature_minimum", "TEMPERATURE_MINIMUM")]
            visible_repeatable_fields :=
              [("humidity", "ACTUAL_HUMIDITY"), ("temperature", "ACTUAL_TEMPERATURE")]
            fields := some [(0, [("valve_state", "VALVE_STATE")])] }
        include_default_entities := false }
  | .RF_SIREN => none
  | .RF_SWITCH => some
      { device_group :=
          { primary_channel := 0
            repeatable_fields := [("state", "STATE"), ("on_time_value", "ON_TIME")] }
        additional_entities :=
          [(1, ["CURRENT", "ENERGY_COUNTER", "FREQUENCY", "POWER", "VOLTAGE"])] }
  | .SIMPLE_RF_THERMOSTAT => some
      { device_group :=
          { primary_channel := 0
            visible_repeatable_fields :=
              [("humidity", "HUMIDITY"), ("temperature", "TEMPERATURE")]
            fields := some [(1, [("setpoint", "SETPOINT")])] } }

/-- `_get_device`: look the kind up in `entity_definition[ED_DEVICE_DEFINITIONS]`
(the `deepcopy` is immaterial for immutable values). -/
def get_device (device_enum : EntityDefinition) : Option DeviceDef :=
  device_definitions device_enum

/-- `_rebase_entity_dict`: shift every channel key of a `fields`/`visible_fields`
dict by `base_channel_no`, keeping the field maps; an absent or empty dict
(falsy `group.get(entity_dict)`) yields the empty dict. -/
def rebase_entity_dict (fields : Option ChannelFields) (base_channel_no : Int) :
    ChannelFields :=
  match fields with
  | some fs => fs.map (fun cf => (cf.1 + base_channel_no, cf.2))
  | none => []

/-- The rebasing arm of `_get_device_group` (the code after the `base_channel_no == 0`
early return): shift `primary_channel` and the `secondary_channels` (the walrus
`if secondary_channel := group.get(...)` leaves an absent or empty tuple
unchanged), and store the rebased `visible_fields` and `fields` dicts. -/
def rebase_device_group (group : DeviceGroup) (base_channel_no : Int) : DeviceGroup :=
  { primary_channel := group.primary_channel + base_channel_no
    secondary_channels :=
      match group.secondary_channels with
      | some scs => if scs = [] then some [] else some (scs.map (· + base_channel_no))
      | none => none
    repeatable_fields := group.repeatable_fields
    visible_repeatable_fields := group.visible_repeatable_fields
    visible_fields := some (rebase_entity_dict group.visible_fields base_channel_no)
    fields := some (rebase_entity_dict group.fields base_channel_no) }

/-- `_get_device_group`.  When the kind has an entry, its (always truthy) group
dict is returned unchanged for `base_channel_no == 0` and rebased otherwise.
When the kind has no entry (`_get_device` returns `None`), the Python code
falls through its `if device:` block with `group = {}` and then evaluates
`group[ED_PRIMARY_CHANNEL]`, raising `KeyError` — modelled as `Except.error`. -/
def get_device_group (device_enum : EntityDefinition) (base_channel_no : Int) :
    Except String DeviceGroup :=
  match get_device device_enum with
  | some device =>
      let group := device.device_group
      if base_channel_no = 0 then .ok group
      else .ok (rebase_device_group group base_channel_no)
  | none => .error "KeyError: primary_channel"

/-- `_get_device_entities`: the kind's `ED_ADDITIONAL_ENTITIES` dict (empty when
the kind or the key is absent) with every channel key shifted by
`base_channel_no`. -/
def get_device_entities (device_enum : EntityDefinition) (base_channel_no : Int) :
    AdditionalEntities :=
  let additional_entities :=
    match get_device device_enum with
    | some device => device.additional_entities
    | none => []
  additional_entities.map (fun cf => (cf.1 + base_channel_no, cf.2))

/-! ## The custom-entity factory (`make_custom_entity` / `_create_entities`)

The collaborators the factory consumes live outside the provided sources
(`hahomematic/device.py`, `hahomematic/entity.py`, `hahomematic/helpers.py`),
so they are modelled from the spec, as noted on each definition. -/

/-- Modelled from the spec: the device catalog (`hahomematic.device.HmDevice`
is not among the sources) "supplies, for a device, its model identifier and the
set of existing channel addresses"; `device.device_address` and
`device.channels` are the two members the factory reads. -/
structure HmDevice where
  device_address : String
  channels : List String
  deriving DecidableEq

/-- Modelled from the spec: `generate_unique_identifier` (from the missing
`hahomematic.helpers` module) is a "deterministic function of (device_address,
channel_address, optional disambiguator) → stable string", modelled as the
channel address itself. -/
def generate_unique_identifier (address : String) : String :=
  address

/-- The channel address string `f"{device.device_address}:{channel_no}"`. -/
def channel_address (device : HmDevice) (channel_no : Int) : String :=
  device.device_address ++ ":" ++ toString channel_no

/-- Modelled from the spec: instantiating the kind-specific behavior class and
counting the fields it bound (`len(entity.data_entities)`; the class `__init__`
lives in the missing `hahomematic.entity` module).  Abstracted as an arbitrary
function of the arguments the factory passes that vary between calls:
the rebased `device_def`, the `entity_def`, and the `channel_no`. -/
abbrev DataEntityCount := DeviceGroup → AdditionalEntities → Int → Nat

/-- One invocation of `custom_entity_class(...)` inside `_create_entities`,
recording the arguments that vary between invocations. -/
structure Instantiation where
  channel_no : Int
  device_def : DeviceGroup
  entity_def : AdditionalEntities
  deriving DecidableEq

/-- Accumulated effect of a factory run: `registered` is the device catalog's
list of registered unique identifiers (`central.has_entity` checks it,
`device.add_entity` appends to it — modelled from the spec's device-catalog
interface); `created` is the tuple of entities the call returns (their unique
identifiers); `instantiated` records every behavior-object construction. -/
structure FactoryResult where
  registered : List String
  created : List String
  instantiated : List Instantiation
  deriving DecidableEq

/-- `_create_entities` for one channel: skip if the unique identifier is
already registered; skip if the device has no channel at that address;
otherwise instantiate the behavior class and register it only when it bound
at least one data entity (`len(entity.data_entities) > 0`). -/
def create_entities (bind : DataEntityCount) (device : HmDevice)
    (device_def : DeviceGroup) (entity_def : AdditionalEntities)
    (channel_no : Int) (acc : FactoryResult) : FactoryResult :=
  let address := channel_address device channel_no
  let unique_identifier := generate_unique_identifier address
  if unique_identifier ∈ acc.registered then acc
  else if address ∉ device.channels then acc
  else if 0 < bind device_def entity_def channel_no then
    { registered := acc.registered ++ [unique_identifier]
      created := acc.created ++ [unique_identifier]
      instantiated := acc.instantiated ++ [⟨channel_no, device_def, entity_def⟩] }
  else
    { acc with instantiated := acc.instantiated ++ [⟨channel_no, device_def, entity_def⟩] }

/-- The `for channel_no in set(channels)` loop body of `make_custom_entity`. -/
def run_channels (bind : DataEntityCount) (device : HmDevice)
    (device_def : DeviceGroup) (entity_def : AdditionalEntities) :
    List Int → FactoryResult → FactoryResult
  | [], acc => acc
  | c :: rest, acc =>
      run_channels bind device device_def entity_def rest
        (create_entities bind device device_def entity_def c acc)

/-- The channel list of one base channel:
`channels = [device_def[ED_PRIMARY_CHANNEL]]`, extended by the (truthy)
secondary channels, iterated as `set(channels)` (duplicates removed). -/
def channels_of (device_def : DeviceGroup) : List Int :=
  let channels := [device_def.primary_channel]
  let channels :=
    match device_def.secondary_channels with
    | some scs => if scs = [] then channels else channels ++ scs
    | none => channels
  channels.dedup

/-- The `for base_channel in group_base_channels` loop of `make_custom_entity`:
each iteration rebases the device group (which raises for an undefined kind)
and runs `_create_entities` over the channel set. -/
def run_base_channels (bind : DataEntityCount) (device : HmDevice)
    (device_enum : EntityDefinition) (entity_def : AdditionalEntities) :
    List Int → FactoryResult → Except String FactoryResult
  | [], acc => .ok acc
  | b :: rest, acc =>
      match get_device_group device_enum b with
      | .error e => .error e
      | .ok device_def =>
          run_base_channels bind device device_enum entity_def rest
            (run_channels bind device device_def entity_def (channels_of device_def) acc)

/-- `make_custom_entity`: computes `entity_def` once, from
`group_base_channels[0]` (raising `IndexError` on an empty tuple), then loops
over all base channels, threading the catalog state `registered`. -/
def make_custom_entity (bind : DataEntityCount) (device : HmDevice)
    (device_enum : EntityDefinition) (group_base_channels : List Int)
    (registered : List String) : Except String FactoryResult :=
  match group_base_channels with
  | [] => .error "IndexError: tuple index out of range"
  | b0 :: _ =>
      let entity_def := get_device_entities device_enum b0
      run_base_channels bind device device_enum entity_def group_base_channels
        ⟨registered, [], []⟩

/-! ## Light behaviors (`light.py`) -/

/-- A raw parameter value sent to the backend. -/
inductive HmValue where
  | i : Int → HmValue
  | q : Rat → HmValue
  | b : Bool → HmValue
  | s : String → HmValue
  deriving DecidableEq, Repr

/-- One field write issued by a command method: field name and value. -/
abbrev FieldWrite := String × HmValue

/-- Python `int()` truncation toward zero, on a rational. -/
def pyTrunc (x : Rat) : Int :=
  if 0 ≤ x then ⌊x⌋ else ⌈x⌉

/-- Python `round()` on a rational: round half to even. -/
def pyRound (x : Rat) : Int :=
  if x - ⌊x⌋ < 1/2 then ⌊x⌋
  else if 1/2 < x - ⌊x⌋ then ⌊x⌋ + 1
  else if Even ⌊x⌋ then ⌊x⌋ else ⌊x⌋ + 1

def HM_MAX_MIREDS : Int := 500
def HM_MIN_MIREDS : Int := 153
def HM_DIMMER_OFF : Rat := 0
def TIME_UNIT_SECONDS : Int := 0
def TIME_UNIT_MINUTES : Int := 1
def TIME_UNIT_HOURS : Int := 2
def HM_EFFECT_OFF : String := "Off"

/-- Cached values of the bound fields a light entity reads (`None` = absent). -/
structure LightState where
  level : Option Rat := none
  color : Option Int := none
  color_level : Option Rat := none
  program : Option Int := none
  color_name : Option String := none
  deriving DecidableEq

/-- The keyword arguments of `turn_on` (each `None` when absent); `other` is
true when any unrelated keyword argument is present, so that the Python
truthiness test `kwargs` is `nonempty`. -/
structure TurnOnArgs where
  ramp_time : Option Rat := none
  on_time : Option Rat := none
  brightness : Option Int := none
  hs_color : Option (Rat × Rat) := none
  color_temp : Option Int := none
  effect : Option String := none
  other : Bool := false
  deriving DecidableEq

/-- Truthiness of the `kwargs` dict. -/
def TurnOnArgs.nonempty (a : TurnOnArgs) : Bool :=
  a.ramp_time.isSome || a.on_time.isSome || a.brightness.isSome ||
  a.hs_color.isSome || a.color_temp.isSome || a.effect.isSome || a.other

/-- `CeDimmer.is_on` (and identically `CeIpFixedColorLight.is_on`):
`value is not None and value > HM_DIMMER_OFF`. -/
def ceDimmer_is_on (st : LightState) : Bool :=
  match st.level with
  | none => false
  | some v => decide (HM_DIMMER_OFF < v)

/-- `CeDimmer.brightness` (and identically `CeIpFixedColorLight.brightness`):
`int((value or 0.0) * 255)`. -/
def ceDimmer_brightness (st : LightState) : Int :=
  pyTrunc ((st.level.getD 0) * 255)

/-- `BaseHmLight.set_on_time_value`: send the raw seconds value. -/
def base_set_on_time_value (on_time : Rat) : List FieldWrite :=
  [("on_time_value", .q on_time)]

/-- `BaseHmLight.set_ramp_time_value`: send the raw seconds value. -/
def base_set_ramp_time_value (ramp_time : Rat) : List FieldWrite :=
  [("ramp_time_value", .q ramp_time)]

/-- The dual-unit duration conversion of `CeIpFixedColorLight.set_on_time_value`
and `.set_ramp_time_value`: start at `SECONDS`; if the value exceeds 16343,
divide by 60 and move to `MINUTES`; if it still exceeds 16343, divide by 60
again and move to `HOURS`. -/
def encode_duration (t : Rat) : Rat × Int :=
  let s := if t > 16343 then (t / 60, TIME_UNIT_MINUTES) else (t, TIME_UNIT_SECONDS)
  if s.1 > 16343 then (s.1 / 60, TIME_UNIT_HOURS) else s

/-- `CeIpFixedColorLight.set_on_time_value`: the unit field is written before
the value field. -/
def fixed_set_on_time_value (on_time : Rat) : List FieldWrite :=
  [("on_time_unit", .i (encode_duration on_time).2),
   ("on_time_value", .q (encode_duration on_time).1)]

/-- `CeIpFixedColorLight.set_ramp_time_value`: the unit field is written before
the value field. -/
def fixed_set_ramp_time_value (ramp_time : Rat) : List FieldWrite :=
  [("ramp_time_unit", .i (encode_duration ramp_time).2),
   ("ramp_time_value", .q (encode_duration ramp_time).1)]

/-- `BaseHmLight.turn_on`, parameterized over the (overridable)
`set_ramp_time_value` / `set_on_time_value` methods and the entity's current
`self.brightness`: ramp time if present, then on time if present, then the
level write guarded by
`(brightness := kwargs.get(HM_ARG_BRIGHTNESS, self.brightness) or 255)
 and brightness != self.brightness or kwargs`. -/
def base_turn_on (set_ramp set_on : Rat → List FieldWrite)
    (cur_brightness : Int) (args : TurnOnArgs) : List FieldWrite :=
  (match args.ramp_time with
   | some ramp_time => set_ramp ramp_time
   | none => []) ++
  (match args.on_time with
   | some on_time => set_on on_time
   | none => []) ++
  (let brightness := args.brightness.getD cur_brightness
   let brightness := if brightness = 0 then 255 else brightness
   if (brightness ≠ 0 ∧ brightness ≠ cur_brightness) ∨ args.nonempty then
     [("level", .q (brightness / 255))]
   else [])

/-- `CeDimmer.turn_on` (inherited unchanged from `BaseHmLight`). -/
def ceDimmer_turn_on (st : LightState) (args : TurnOnArgs) : List FieldWrite :=
  base_turn_on base_set_ramp_time_value base_set_on_time_value
    (ceDimmer_brightness st) args

/-- `CeColorDimmer.hs_color`: color code ≥ 200 (or an absent value) reads as
white `(0.0, 0.0)`; otherwise hue is proportional to the code, saturation 100. -/
def ceColorDimmer_hs_color (st : LightState) : Rat × Rat :=
  match st.color with
  | some color => if color ≥ 200 then (0, 0) else ((color : Rat) / 200 * 360, 100)
  | none => (0, 0)

/-- The color code computed inside `CeColorDimmer.turn_on` from an
`hs_color` argument: saturation below 10% is the white code 200; otherwise
`int(round(max(min(hue, 1), 0) * 199))` with `hue` already divided by 360. -/
def ceColorDimmer_color_code (hs : Rat × Rat) : Int :=
  let hue := hs.1 / 360
  let saturation := hs.2 / 100
  if saturation < 1/10 then 200
  else pyRound (max (min hue 1) 0 * 199)

/-- `CeColorDimmer.turn_on`: the color write (if `hs_color` is present) happens
first, then the inherited `BaseHmLight.turn_on` runs via `super()`. -/
def ceColorDimmer_turn_on (st : LightState) (args : TurnOnArgs) : List FieldWrite :=
  (match args.hs_color with
   | some hs => [("color", .i (ceColorDimmer_color_code hs))]
   | none => []) ++
  ceDimmer_turn_on st args

/-- `CeColorDimmerEffect._effect_list`. -/
def effect_list : List String :=
  ["Off", "Slow color change", "Medium color change", "Fast color change",
   "Campfire", "Waterfall", "TV simulation"]

/-- Python list indexing `l[i]` (negative indexes wrap; out of range raises). -/
def pyListGet (l : List String) (i : Int) : Except String String :=
  let j := if i < 0 then i + l.length else i
  if h : 0 ≤ j ∧ j < l.length then .ok (l.get ⟨j.toNat, by omega⟩)
  else .error "IndexError: list index out of range"

/-- `CeColorDimmerEffect.effect`: `self._effect_list[int(value)]` when a raw
value is cached, `None` otherwise. -/
def ceColorDimmerEffect_effect (st : LightState) : Except String (Option String) :=
  match st.program with
  | some v => (pyListGet effect_list v).map some
  | none => .ok none

/-- The first block of `CeColorDimmerEffect.turn_on`: when a new color arrives
(`HM_ARG_HS_COLOR in kwargs`, with `supports_effects` constantly true) and the
current effect is not `"Off"` (`None` included, as `None != "Off"` is true),
reset the effect to index 0; reading the current effect can raise. -/
def effect_reset_writes (st : LightState) (args : TurnOnArgs) :
    Except String (List FieldWrite) :=
  if args.hs_color.isSome then
    match ceColorDimmerEffect_effect st with
    | .ok eff =>
        .ok (if eff ≠ some HM_EFFECT_OFF then [("program", HmValue.i 0)] else [])
    | .error e => .error e
  else .ok []

/-- The second block of `CeColorDimmerEffect.turn_on`: send the index of a
requested effect name (`self._effect_list.index(effect)` raises `ValueError`
for an unknown name; the `if effect_idx is not None` guard is always true). -/
def effect_requested_writes (args : TurnOnArgs) :
    Except String (List FieldWrite) :=
  match args.effect with
  | some effect =>
      match effect_list.findIdx? (· == effect) with
      | some effect_idx => .ok [("program", HmValue.i (effect_idx : Int))]
      | none => .error "ValueError: not in list"
  | none => .ok []

/-- `CeColorDimmerEffect.turn_on`: the effect-reset block, then the
effect-request block, then the delegation to `CeColorDimmer.turn_on` via
`super()`. -/
def ceColorDimmerEffect_turn_on (st : LightState) (args : TurnOnArgs) :
    Except String (List FieldWrite) :=
  match effect_reset_writes st args with
  | .error e => .error e
  | .ok reset =>
      match effect_requested_writes args with
      | .error e => .error e
      | .ok requested => .ok (reset ++ requested ++ ceColorDimmer_turn_on st args)

/-- `CeColorTempDimmer.turn_on`: the color-temperature write (solving the
mireds relation for the level fraction), if present, happens first, then the
inherited `BaseHmLight.turn_on` runs via `super()`; the field name is the
value of `FIELD_COLOR_LEVEL`, i.e. `"color_temp"`. -/
def ceColorTempDimmer_turn_on (st : LightState) (args : TurnOnArgs) :
    List FieldWrite :=
  (match args.color_temp with
   | some color_temp =>
       [("color_temp",
         .q (((HM_MAX_MIREDS - color_temp : Int) : Rat) /
             ((HM_MAX_MIREDS - HM_MIN_MIREDS : Int) : Rat)))]
   | none => []) ++
  ceDimmer_turn_on st args

/-- `_convert_color`: quantize an (hue, saturation) pair into one of the device's
named colors — saturation below 5 is white, then 60°-wide hue bands. -/
def convert_color (color : Option (Rat × Rat)) : String :=
  match color with
  | none => "WHITE"
  | some c =>
      let hue : Int := pyTrunc c.1
      let saturation : Int := pyTrunc c.2
      if saturation < 5 then "WHITE"
      else if 30 < hue ∧ hue ≤ 90 then "YELLOW"
      else if 90 < hue ∧ hue ≤ 150 then "GREEN"
      else if 150 < hue ∧ hue ≤ 210 then "TURQUOISE"
      else if 210 < hue ∧ hue ≤ 270 then "BLUE"
      else if 270 < hue ∧ hue ≤ 330 then "PURPLE"
      else "RED"

/-- `CeIpFixedColorLight.turn_on`: the named-color write (if `hs_color` is
present) happens first, then the inherited `BaseHmLight.turn_on` runs via
`super()`, with the overridden dual-unit `set_on_time_value` /
`set_ramp_time_value`. -/
def ceIpFixedColorLight_turn_on (st : LightState) (args : TurnOnArgs) :
    List FieldWrite :=
  (match args.hs_color with
   | some hs => [("color", .s (convert_color (some hs)))]
   | none => []) ++
  base_turn_on fixed_set_ramp_time_value fixed_set_on_time_value
    (ceDimmer_brightness st) args

/-- The concrete light classes of `light.py` with a `turn_on` implementation. -/
inductive LightKind where
  | dimmer
  | colorDimmer
  | colorDimmerEffect
  | colorTempDimmer
  | fixedColorLight
  deriving DecidableEq

/-- The write sequence `turn_on` issues for each light kind (an `Except.error`
models the exceptions `CeColorDimmerEffect.turn_on` can raise). -/
def turn_on_writes : LightKind → LightState → TurnOnArgs →
    Except String (List FieldWrite)
  | .dimmer, st, args => .ok (ceDimmer_turn_on st args)
  | .colorDimmer, st, args => .ok (ceColorDimmer_turn_on st args)
  | .colorDimmerEffect, st, args => ceColorDimmerEffect_turn_on st args
  | .colorTempDimmer, st, args => .ok (ceColorTempDimmer_turn_on st args)
  | .fixedColorLight, st, args => .ok (ceIpFixedColorLight_turn_on st args)

/-! ## Lock behaviors (`lock.py`) -/

/-- Cached values of the bound fields of `CeRfLock` (classic lock). -/
structure RfLockState where
  state : Option Bool := none
  direction : Option String := none
  error : Option String := none
  deriving DecidableEq

/-- `CeRfLock.is_locked`: `self._e_state.value is not True`. -/
def ceRfLock_is_locked (st : RfLockState) : Bool :=
  decide (st.state ≠ some true)

/-- `CeRfLock.is_jammed`:
`self._e_error.value is not None and self._e_error.value != "NO_ERROR"`. -/
def ceRfLock_is_jammed (st : RfLockState) : Bool :=
  decide (st.error ≠ none) && decide (st.error ≠ some "NO_ERROR")

/-- `CeRfLock.lock`: write `STATE = False`. -/
def ceRfLock_lock : List FieldWrite := [("state", .b false)]

/-- `CeRfLock.unlock`: write `STATE = True`. -/
def ceRfLock_unlock : List FieldWrite := [("state", .b true)]

/-- `CeRfLock.open`: write `True` to the separate `OPEN` pulse field. -/
def ceRfLock_open : List FieldWrite := [("open", .b true)]

/-! ## Theorems -/

/-- C4: the claim says that for an entity kind with no device-group definition,
rebasing yields an empty schema and no entity rather than failing.  The code
does the opposite: for `EntityDefinition.RF_SIREN` — an enum member with no
entry in `entity_definition[ED_DEVICE_DEFINITIONS]` — `_get_device` returns
`None`, the `if device:` guard (which contains the `return {}` for an empty
group) is skipped, and `group[ED_PRIMARY_CHANNEL]` raises `KeyError` on the
empty dict, for base channel 1 as well as 0. -/
theorem get_device_group_missing_kind_raises :
    device_definitions EntityDefinition.RF_SIREN = none ∧
    get_device_group EntityDefinition.RF_SIREN 1 =
      Except.error "KeyError: primary_channel" ∧
    get_device_group EntityDefinition.RF_SIREN 0 =
      Except.error "KeyError: primary_channel" :=
  ⟨rfl, rfl, rfl⟩

/-- C10: when the dimmer's cached level value is absent (`None`),
`CeDimmer.is_on` is `False` (not `None`) and `CeDimmer.brightness` is `0` —
exactly the values an explicit level of `0.0` produces. -/
theorem dimmer_absent_level_degrades :
    ceDimmer_is_on { level := none } = false ∧
    ceDimmer_brightness { level := none } = 0 ∧
    ceDimmer_is_on { level := none } = ceDimmer_is_on { level := some 0 } ∧
    ceDimmer_brightness { level := none } = ceDimmer_brightness { level := some 0 } := by
  refine ⟨rfl, ?_, rfl, ?_⟩ <;> norm_num [ceDimmer_brightness, pyTrunc]

/-- C8: classic-lock semantics of `CeRfLock`: `is_locked` is true exactly when
the cached state is not the boolean `True` (so `state=True` reads unlocked and
`state=False` reads locked), `is_jammed` is true exactly when the error field
holds a value other than the `"NO_ERROR"` sentinel, `lock` writes
`STATE=False`, `unlock` writes `STATE=True`, and `open` writes `True` to the
separate `OPEN` pulse field. -/
theorem rf_lock_semantics :
    (∀ st : RfLockState, ceRfLock_is_locked st = true ↔ st.state ≠ some true) ∧
    ceRfLock_is_locked { state := some true } = false ∧
    ceRfLock_is_locked { state := some false } = true ∧
    (∀ st : RfLockState,
      ceRfLock_is_jammed st = true ↔ ∃ v, st.error = some v ∧ v ≠ "NO_ERROR") ∧
    ceRfLock_lock = [("state", .b false)] ∧
    ceRfLock_unlock = [("state", .b true)] ∧
    ceRfLock_open = [("open", .b true)] := by
  refine ⟨fun st => ?_, rfl, rfl, fun st => ?_, rfl, rfl, rfl⟩
  · simp [ceRfLock_is_locked]
  · cases h : st.error <;> simp [ceRfLock_is_jammed, h]

/-- C7: dual-unit duration encoding on `CeIpFixedColorLight`: durations up to
16343 stay in seconds, above that they are divided by 60 into minutes, and if
still above 16343 divided by 60 again into hours; `encode_duration 16343 =
(16343, SECONDS)`, `encode_duration 16344 = (272.4, MINUTES)` and
`encode_duration 1000000` lands in hours; the fixed-color light writes the
unit field before the value field, while the plain `BaseHmLight` setters send
the raw seconds with no conversion. -/
theorem duration_encoding :
    (∀ t : Rat, t ≤ 16343 → encode_duration t = (t, TIME_UNIT_SECONDS)) ∧
    (∀ t : Rat, 16343 < t → t / 60 ≤ 16343 →
      encode_duration t = (t / 60, TIME_UNIT_MINUTES)) ∧
    (∀ t : Rat, 16343 < t / 60 →
      encode_duration t = (t / 60 / 60, TIME_UNIT_HOURS)) ∧
    encode_duration 16343 = (16343, TIME_UNIT_SECONDS) ∧
    encode_duration 16344 = (1362/5, TIME_UNIT_MINUTES) ∧
    (encode_duration 1000000).2 = TIME_UNIT_HOURS ∧
    (∀ t : Rat, fixed_set_on_time_value t =
      [("on_time_unit", .i (encode_duration t).2),
       ("on_time_value", .q (encode_duration t).1)]) ∧
    (∀ t : Rat, fixed_set_ramp_time_value t =
      [("ramp_time_unit", .i (encode_duration t).2),
       ("ramp_time_value", .q (encode_duration t).1)]) ∧
    (∀ t : Rat, base_set_on_time_value t = [("on_time_value", .q t)]) ∧
    (∀ t : Rat, base_set_ramp_time_value t = [("ramp_time_value", .q t)]) := by
  refine ⟨fun t h => ?_, fun t h1 h2 => ?_, fun t h => ?_,
    by norm_num [encode_duration, TIME_UNIT_SECONDS],
    by norm_num [encode_duration, TIME_UNIT_MINUTES, TIME_UNIT_SECONDS],
    by norm_num [encode_duration, TIME_UNIT_HOURS, TIME_UNIT_MINUTES],
    fun t => rfl, fun t => rfl, fun t => rfl, fun t => rfl⟩
  · have h' : ¬ t > 16343 := not_lt.mpr h
    simp [encode_duration, h']
  · have h2' : ¬ t / 60 > 16343 := not_lt.mpr h2
    simp [encode_duration, h1, h2']
  · have h1 : t > 16343 := by
      have h60 : (16343 : Rat) * 60 < t :=
        (lt_div_iff₀ (by norm_num : (0:Rat) < 60)).mp h
      linarith
    simp [encode_duration, h1, h]

/-- C7 witness: the general clauses of `duration_encoding` applied at the
concrete durations 100, 20000 and 1000000 seconds. -/
theorem duration_encoding_witness :
    encode_duration 100 = (100, TIME_UNIT_SECONDS) ∧
    encode_duration 20000 = (1000/3, TIME_UNIT_MINUTES) ∧
    encode_duration 1000000 = (2500/9, TIME_UNIT_HOURS) := by
  refine ⟨duration_encoding.1 100 (by norm_num), ?_, ?_⟩
  · have h := duration_encoding.2.1 20000 (by norm_num) (by norm_num)
    rw [h]; norm_num
  · have h := duration_encoding.2.2.1 1000000 (by norm_num)
    rw [h]; norm_num

/-- C6: the color-dimmer code/color mapping of `CeColorDimmer`: a cached code
`c` reads as `(0, 0)` when `c ≥ 200` and as `(c/200*360, 100)` otherwise; on
write, saturation below 10 yields code 200 and otherwise
`round(clamp(hue/360, 0, 1) * 199)`; encoding `(hue=0, saturation=100)` and
decoding yields exactly `(0, 100)`, and encoding any saturation below 10 and
decoding yields `(0, 0)` regardless of hue. -/
theorem color_dimmer_code_mapping :
    (∀ c : Int, ceColorDimmer_hs_color { color := some c } =
      if c ≥ 200 then (0, 0) else ((c : Rat) / 200 * 360, 100)) ∧
    (∀ hue sat : Rat, ceColorDimmer_color_code (hue, sat) =
      if sat < 10 then 200 else pyRound (max (min (hue / 360) 1) 0 * 199)) ∧
    ceColorDimmer_color_code (0, 100) = 0 ∧
    ceColorDimmer_hs_color { color := some (ceColorDimmer_color_code (0, 100)) } =
      (0, 100) ∧
    (∀ hue sat : Rat, sat < 10 →
      ceColorDimmer_color_code (hue, sat) = 200 ∧
      ceColorDimmer_hs_color { color := some (ceColorDimmer_color_code (hue, sat)) } =
        (0, 0)) := by
  refine ⟨fun c => rfl, fun hue sat => ?_, ?_, ?_, fun hue sat h => ?_⟩
  · show (if sat / 100 < 1/10 then (200 : Int)
        else pyRound (max (min (hue / 360) 1) 0 * 199)) = _
    by_cases h : sat < 10
    · rw [if_pos h, if_pos (by linarith : sat / 100 < 1/10)]
    · rw [if_neg h, if_neg (by rw [not_lt] at h ⊢; linarith : ¬ sat / 100 < 1/10)]
  · norm_num [ceColorDimmer_color_code, pyRound, min_def, max_def]
  · have hc : ceColorDimmer_color_code (0, 100) = 0 := by
      norm_num [ceColorDimmer_color_code, pyRound, min_def, max_def]
    rw [hc]
    norm_num [ceColorDimmer_hs_color]
  · have hc : ceColorDimmer_color_code (hue, sat) = 200 := by
      have h' : sat / 100 < 1/10 := by linarith
      show (if sat / 100 < 1/10 then (200 : Int)
          else pyRound (max (min (hue / 360) 1) 0 * 199)) = _
      rw [if_pos h']
    exact ⟨hc, by rw [hc]; norm_num [ceColorDimmer_hs_color]⟩

/-- C6 witness: the low-saturation clause of `color_dimmer_code_mapping`
applied at hue 123, saturation 5. -/
theorem color_dimmer_code_mapping_witness :
    ceColorDimmer_color_code (123, 5) = 200 ∧
    ceColorDimmer_hs_color { color := some (ceColorDimmer_color_code (123, 5)) } =
      (0, 0) :=
  color_dimmer_code_mapping.2.2.2.2 123 5 (by norm_num)

/-- C9: when the device catalog reports no channel at the computed channel
address, `_create_entities` returns the accumulator untouched: zero entities
for that channel, no behavior-object instantiation, and no `add_entity`
registration. -/
theorem missing_channel_no_entities :
    ∀ (bind : DataEntityCount) (device : HmDevice) (device_def : DeviceGroup)
      (entity_def : AdditionalEntities) (channel_no : Int) (acc : FactoryResult),
    channel_address device channel_no ∉ device.channels →
    create_entities bind device device_def entity_def channel_no acc = acc := by
  intro bind device device_def entity_def channel_no acc h
  unfold create_entities
  by_cases hmem :
      generate_unique_identifier (channel_address device channel_no) ∈ acc.registered
  · simp [hmem]
  · simp [hmem, h]

/-- C9 witness: `missing_channel_no_entities` applied to a device exposing no
channels at all, at channel 1. -/
theorem missing_channel_no_entities_witness :
    create_entities (fun _ _ _ => 1) ⟨"VCU0000001", []⟩
      { primary_channel := 1 } [] 1 ⟨[], [], []⟩ = ⟨[], [], []⟩ :=
  missing_channel_no_entities (fun _ _ _ => 1) ⟨"VCU0000001", []⟩
    { primary_channel := 1 } [] 1 ⟨[], [], []⟩ (by decide)

/-- C1: channel rebasing is additive and identity at zero.  For every entity
kind with a device-group definition and every base offset `b ≥ 0`:
`_get_device_group` succeeds; with `b = 0` it returns the schema unchanged;
the rebased primary channel is the original plus `b`; the secondary channels
are the originals each shifted by `b`; and every channel key of the rebased
`fields` and `visible_fields` dicts is an original key plus `b`, with the
field-to-parameter maps unchanged. -/
theorem rebase_additive_identity :
    ∀ (k : EntityDefinition) (d : DeviceDef), device_definitions k = some d →
    ∀ b : Int, 0 ≤ b →
    ∃ g, get_device_group k b = .ok g ∧
      (b = 0 → g = d.device_group) ∧
      g.primary_channel = d.device_group.primary_channel + b ∧
      g.secondary_channels = d.device_group.secondary_channels.map (List.map (· + b)) ∧
      (∀ c m, (c, m) ∈ g.fields.getD [] →
        ∃ c₀, (c₀, m) ∈ d.device_group.fields.getD [] ∧ c = c₀ + b) ∧
      (∀ c m, (c, m) ∈ g.visible_fields.getD [] →
        ∃ c₀, (c₀, m) ∈ d.device_group.visible_fields.getD [] ∧ c = c₀ + b) := by
  intro k d hk b hb
  by_cases h0 : b = 0
  · subst h0
    refine ⟨d.device_group, ?_, fun _ => rfl, by ring, ?_, ?_, ?_⟩
    · simp [get_device_group, get_device, hk]
    · cases hs : d.device_group.secondary_channels <;> simp
    · exact fun c m hm => ⟨c, hm, by ring⟩
    · exact fun c m hm => ⟨c, hm, by ring⟩
  · refine ⟨rebase_device_group d.device_group b, ?_, fun h => absurd h h0, rfl, ?_, ?_, ?_⟩
    · simp [get_device_group, get_device, hk, h0]
    · show (match d.device_group.secondary_channels with
        | some scs => if scs = [] then some [] else some (scs.map (· + b))
        | none => none) = _
      cases hs : d.device_group.secondary_channels with
      | none => rfl
      | some l => cases l <;> simp
    · intro c m hm
      have hm' : (c, m) ∈ rebase_entity_dict d.device_group.fields b := hm
      cases hf : d.device_group.fields with
      | none => rw [hf] at hm'; simp [rebase_entity_dict] at hm'
      | some fs =>
          rw [hf] at hm'
          simp only [rebase_entity_dict, List.mem_map] at hm'
          obtain ⟨cf, hcf, heq⟩ := hm'
          refine ⟨cf.1, ?_, ?_⟩
          · simpa [hf, ← (Prod.mk.injEq ..).mp heq |>.2] using hcf
          · exact ((Prod.mk.injEq ..).mp heq).1.symm
    · intro c m hm
      have hm' : (c, m) ∈ rebase_entity_dict d.device_group.visible_fields b := hm
      cases hf : d.device_group.visible_fields with
      | none => rw [hf] at hm'; simp [rebase_entity_dict] at hm'
      | some fs =>
          rw [hf] at hm'
          simp only [rebase_entity_dict, List.mem_map] at hm'
          obtain ⟨cf, hcf, heq⟩ := hm'
          refine ⟨cf.1, ?_, ?_⟩
          · simpa [hf, ← (Prod.mk.injEq ..).mp heq |>.2] using hcf
          · exact ((Prod.mk.injEq ..).mp heq).1.symm

/-- C1 witness: `rebase_additive_identity` applied to `IP_DIMMER` at base
channel 3 (the spec's end-to-end scenario: primary channel 1 + 3 = 4). -/
theorem rebase_additive_identity_witness :
    ∃ g, get_device_group EntityDefinition.IP_DIMMER 3 = .ok g ∧
      g.primary_channel = 4 := by
  obtain ⟨g, hg, -, hp, -, -, -⟩ :=
    rebase_additive_identity .IP_DIMMER _ rfl 3 (by norm_num)
  exact ⟨g, hg, by rw [hp]; decide⟩

/-! ## C3: the additional-entities map and base channels -/

/-- The `RF_SWITCH` device group from the table (for the C3 run). -/
def rf_switch_group : DeviceGroup :=
  { primary_channel := 0
    repeatable_fields := [("state", "STATE"), ("on_time_value", "ON_TIME")] }

/-- `RF_SWITCH`'s additional entities rebased by base channel 0. -/
def rf_switch_additional : AdditionalEntities :=
  [(1, ["CURRENT", "ENERGY_COUNTER", "FREQUENCY", "POWER", "VOLTAGE"])]

/-- A two-base-channel `RF_SWITCH` device: channels 0 and 4 exist. -/
def rf_switch_device : HmDevice := ⟨"A", ["A:0", "A:4"]⟩

/-- The result of composing `RF_SWITCH` on `rf_switch_device` at base channels
`(0, 4)` with every instantiation binding one data entity. -/
def rf_switch_result : FactoryResult :=
  { registered := ["A:0", "A:4"]
    created := ["A:0", "A:4"]
    instantiated :=
      [⟨0, rf_switch_group, rf_switch_additional⟩,
       ⟨4, { rf_switch_group with
               primary_channel := 4, fields := some [], visible_fields := some [] },
         rf_switch_additional⟩] }

/-- C3 counterexample: composing `RF_SWITCH` at base channels `(0, 4)` passes
the base-channel-0 rebase of the additional-entities map (channel key 1) to
BOTH instantiations — including the one for base channel 4, whose own rebase
would have channel key 5.  The claim that each base channel's instantiation
uses that base channel's rebased map is therefore false at this input. -/
theorem additional_entities_not_rebased_per_base :
    make_custom_entity (fun _ _ _ => 1) rf_switch_device
        EntityDefinition.RF_SWITCH [0, 4] [] = .ok rf_switch_result ∧
    rf_switch_result.instantiated.map Instantiation.entity_def =
      [get_device_entities EntityDefinition.RF_SWITCH 0,
       get_device_entities EntityDefinition.RF_SWITCH 0] ∧
    get_device_entities EntityDefinition.RF_SWITCH 4 =
      [(5, ["CURRENT", "ENERGY_COUNTER", "FREQUENCY", "POWER", "VOLTAGE"])] ∧
    get_device_entities EntityDefinition.RF_SWITCH 0 ≠
      get_device_entities EntityDefinition.RF_SWITCH 4 :=
  ⟨rfl, by decide, by decide, by decide⟩

/-- Every instantiation of a `create_entities` result either was in the
accumulator or carries the `entity_def` the factory passed. -/
theorem create_entities_entity_def (bind : DataEntityCount) (device : HmDevice)
    (device_def : DeviceGroup) (entity_def : AdditionalEntities) (channel_no : Int)
    (acc : FactoryResult) :
    ∀ inst ∈ (create_entities bind device device_def entity_def channel_no acc).instantiated,
      inst ∈ acc.instantiated ∨ inst.entity_def = entity_def := by
  intro inst hinst
  unfold create_entities at hinst
  by_cases h1 :
      generate_unique_identifier (channel_address device channel_no) ∈ acc.registered
  · rw [if_pos h1] at hinst; exact .inl hinst
  · rw [if_neg h1] at hinst
    by_cases h2 : channel_address device channel_no ∉ device.channels
    · rw [if_pos h2] at hinst; exact .inl hinst
    · rw [if_neg h2] at hinst
      by_cases h3 : 0 < bind device_def entity_def channel_no
      · rw [if_pos h3] at hinst
        rcases List.mem_append.mp hinst with h | h
        · exact .inl h
        · rw [List.mem_singleton.mp h]; exact .inr rfl
      · rw [if_neg h3] at hinst
        rcases List.mem_append.mp hinst with h | h
        · exact .inl h
        · rw [List.mem_singleton.mp h]; exact .inr rfl

/-- `run_channels` preserves "every instantiation carries `entity_def`". -/
theorem run_channels_entity_def (bind : DataEntityCount) (device : HmDevice)
    (device_def : DeviceGroup) (entity_def : AdditionalEntities) :
    ∀ (cs : List Int) (acc : FactoryResult),
    (∀ inst ∈ acc.instantiated, inst.entity_def = entity_def) →
    ∀ inst ∈ (run_channels bind device device_def entity_def cs acc).instantiated,
      inst.entity_def = entity_def := by
  intro cs
  induction cs with
  | nil => exact fun acc h => h
  | cons c rest ih =>
      intro acc h
      refine ih _ fun inst hinst => ?_
      rcases create_entities_entity_def bind device device_def entity_def c acc
        inst hinst with h' | h'
      · exact h inst h'
      · exact h'

/-- `run_base_channels` preserves "every instantiation carries `entity_def`". -/
theorem run_base_channels_entity_def (bind : DataEntityCount) (device : HmDevice)
    (k : EntityDefinition) (entity_def : AdditionalEntities) :
    ∀ (bs : List Int) (acc : FactoryResult) (r : FactoryResult),
    run_base_channels bind device k entity_def bs acc = .ok r →
    (∀ inst ∈ acc.instantiated, inst.entity_def = entity_def) →
    ∀ inst ∈ r.instantiated, inst.entity_def = entity_def := by
  intro bs
  induction bs with
  | nil => intro acc r hr h; cases hr; exact h
  | cons b rest ih =>
      intro acc r hr h
      unfold run_base_channels at hr
      cases hg : get_device_group k b with
      | error e => rw [hg] at hr; cases hr
      | ok device_def =>
          rw [hg] at hr
          exact ih _ r hr
            (run_channels_entity_def bind device device_def entity_def _ acc h)

/-- C3 (amended): `make_custom_entity` rebases the kind's additional-entities
map ONCE, by the first base channel of the sequence, and passes that single
map to every entity it instantiates, whichever base channel the entity comes
from; the rebase itself shifts the (plain integer) channel keys by addition,
so every key at offset `b` is an original (offset 0) key plus `b`. -/
theorem additional_entities_rebased_by_first_base :
    ∀ (bind : DataEntityCount) (device : HmDevice) (k : EntityDefinition)
      (b0 : Int) (rest : List Int) (st : List String) (r : FactoryResult),
    make_custom_entity bind device k (b0 :: rest) st = .ok r →
    (∀ inst ∈ r.instantiated, inst.entity_def = get_device_entities k b0) ∧
    (∀ (b c : Int) (ps : List String), (c, ps) ∈ get_device_entities k b →
      (c - b, ps) ∈ get_device_entities k 0) := by
  intro bind device k b0 rest st r hr
  constructor
  · exact run_base_channels_entity_def bind device k _ (b0 :: rest) ⟨st, [], []⟩ r hr
      (by intro inst h; simp at h)
  · intro b c ps hmem
    simp only [get_device_entities, List.mem_map] at hmem ⊢
    obtain ⟨cf, hcf, heq⟩ := hmem
    refine ⟨cf, hcf, ?_⟩
    obtain ⟨h1, h2⟩ := (Prod.mk.injEq ..).mp heq
    rw [Prod.mk.injEq]
    exact ⟨by omega, h2⟩

/-- C3 witness: `additional_entities_rebased_by_first_base` applied to the
concrete `RF_SWITCH` run at base channels `(0, 4)`: the second instantiation
(base channel 4) carries the base-channel-0 map. -/
theorem additional_entities_rebased_by_first_base_witness :
    (Instantiation.entity_def
      ⟨4, { rf_switch_group with
              primary_channel := 4, fields := some [], visible_fields := some [] },
        rf_switch_additional⟩) = get_device_entities EntityDefinition.RF_SWITCH 0 := by
  have h := (additional_entities_rebased_by_first_base (fun _ _ _ => 1)
    rf_switch_device .RF_SWITCH 0 [4] [] rf_switch_result rfl).1
  exact h _ (by decide)

/-! ## C5: ordering of the writes issued by `turn_on` -/

/-- A ramp-time write (value or, on the fixed-color light, unit). -/
def is_ramp_write (w : FieldWrite) : Bool :=
  w.1 == "ramp_time_value" || w.1 == "ramp_time_unit"

/-- An on-time write (value or, on the fixed-color light, unit). -/
def is_on_time_write (w : FieldWrite) : Bool :=
  w.1 == "on_time_value" || w.1 == "on_time_unit"

/-- A kind-specific color / color-temperature / effect write. -/
def is_extra_write (w : FieldWrite) : Bool :=
  w.1 == "color" || w.1 == "color_temp" || w.1 == "program"

/-- The brightness (level) write. -/
def is_level_write (w : FieldWrite) : Bool :=
  w.1 == "level"

/-- The processing order the claim asserts for `turn_on`: a ramp-time write
block if (and only if) the argument is present, then an on-time block if
present, then the kind-specific color/temperature/effect writes, then the
brightness (level) writes last. -/
def spec_claimed_order (args : TurnOnArgs) (ws : List FieldWrite) : Prop :=
  ∃ r t e l, ws = r ++ t ++ e ++ l ∧
    r.all is_ramp_write = true ∧ t.all is_on_time_write = true ∧
    e.all is_extra_write = true ∧ l.all is_level_write = true ∧
    (r ≠ [] ↔ args.ramp_time.isSome = true) ∧
    (t ≠ [] ↔ args.on_time.isSome = true)

/-- C5 counterexample: `CeColorDimmer.turn_on` called with both `hs_color`
and `ramp_time` writes the color code BEFORE the ramp time — the subclass
issues its color write and only then delegates to `BaseHmLight.turn_on` via
`super()` — so the claimed ramp-time-first order fails at this input. -/
theorem turn_on_color_before_ramp :
    turn_on_writes .colorDimmer { level := some 0 }
        { hs_color := some (0, 100), ramp_time := some 5 } =
      .ok [("color", .i 0), ("ramp_time_value", .q 5), ("level", .q 1)] ∧
    ¬ spec_claimed_order { hs_color := some (0, 100), ramp_time := some 5 }
        [("color", .i 0), ("ramp_time_value", .q 5), ("level", .q 1)] := by
  constructor
  · have hcode : ceColorDimmer_color_code (0, 100) = 0 := by
      norm_num [ceColorDimmer_color_code, pyRound, min_def, max_def]
    simp only [turn_on_writes, ceColorDimmer_turn_on, ceDimmer_turn_on, base_turn_on,
      ceDimmer_brightness, pyTrunc, TurnOnArgs.nonempty, base_set_ramp_time_value,
      base_set_on_time_value, hcode]
    norm_num
  · rintro ⟨r, t, e, l, heq, hr, ht, he, hl, hrne, htne⟩
    have hr0 : r ≠ [] := hrne.mpr rfl
    cases r with
    | nil => exact hr0 rfl
    | cons w r' =>
        have hw : w = ("color", HmValue.i 0) := by
          have hhead := congrArg List.head? heq
          simpa using hhead.symm
        rw [List.all_cons, hw] at hr
        simp [is_ramp_write] at hr

/-- Decomposition of `BaseHmLight.turn_on` into its ramp, on-time and level
blocks, for any overriding duration setters whose writes are classified
correctly and nonempty. -/
theorem base_turn_on_decomp (set_ramp set_on : Rat → List FieldWrite)
    (cur : Int) (args : TurnOnArgs)
    (hra : ∀ x, (set_ramp x).all is_ramp_write = true)
    (hta : ∀ x, (set_on x).all is_on_time_write = true)
    (hrn : ∀ x, set_ramp x ≠ [])
    (htn : ∀ x, set_on x ≠ []) :
    ∃ r t l, base_turn_on set_ramp set_on cur args = r ++ t ++ l ∧
      r.all is_ramp_write = true ∧ t.all is_on_time_write = true ∧
      l.all is_level_write = true ∧
      (r ≠ [] ↔ args.ramp_time.isSome = true) ∧
      (t ≠ [] ↔ args.on_time.isSome = true) ∧
      (l = [] → args.brightness = none ∧
        (let b0 := args.brightness.getD cur
         (if b0 = 0 then 255 else b0) = cur)) := by
  refine ⟨(match args.ramp_time with | some x => set_ramp x | none => []),
          (match args.on_time with | some x => set_on x | none => []),
          (let brightness := args.brightness.getD cur
           let brightness := if brightness = 0 then 255 else brightness
           if (brightness ≠ 0 ∧ brightness ≠ cur) ∨ args.nonempty then
             [("level", .q (brightness / 255))]
           else []),
          rfl, ?_, ?_, ?_, ?_, ?_, ?_⟩
  · cases args.ramp_time with
    | none => rfl
    | some x => exact hra x
  · cases args.on_time with
    | none => rfl
    | some x => exact hta x
  · dsimp only
    split <;> split <;> rfl
  · cases h : args.ramp_time with
    | none => simp
    | some x => simpa using hrn x
  · cases h : args.on_time with
    | none => simp
    | some x => simpa using htn x
  · dsimp only
    split
    · next h0 =>
        split
        · intro h; simp at h
        · next hcond =>
            intro _hl
            push_neg at hcond
            obtain ⟨hb, hne⟩ := hcond
            have hnone : args.brightness = none := by
              cases hbr : args.brightness with
              | none => rfl
              | some v => exact absurd (by simp [TurnOnArgs.nonempty, hbr]) hne
            exact ⟨hnone, hb (by norm_num)⟩
    · next h0 =>
        split
        · intro h; simp at h
        · next hcond =>
            intro _hl
            push_neg at hcond
            obtain ⟨hb, hne⟩ := hcond
            have hnone : args.brightness = none := by
              cases hbr : args.brightness with
              | none => rfl
              | some v => exact absurd (by simp [TurnOnArgs.nonempty, hbr]) hne
            exact ⟨hnone, hb h0⟩

/-- A successful effect-reset block consists of effect ("program") writes. -/
theorem effect_reset_writes_extra (st : LightState) (args : TurnOnArgs)
    (ws : List FieldWrite) (h : effect_reset_writes st args = .ok ws) :
    ws.all is_extra_write = true := by
  unfold effect_reset_writes at h
  by_cases hhs : args.hs_color.isSome
  · rw [if_pos hhs] at h
    cases heff : ceColorDimmerEffect_effect st with
    | error e => rw [heff] at h; cases h
    | ok eff =>
        rw [heff] at h
        have hws : ws = if eff ≠ some HM_EFFECT_OFF then
            [("program", HmValue.i 0)] else [] := (Except.ok.inj h).symm
        rw [hws]
        split <;> simp [is_extra_write]
  · rw [if_neg hhs] at h
    have hws : ws = [] := (Except.ok.inj h).symm
    rw [hws]; rfl

/-- A successful effect-request block consists of effect ("program") writes. -/
theorem effect_requested_writes_extra (args : TurnOnArgs)
    (ws : List FieldWrite) (h : effect_requested_writes args = .ok ws) :
    ws.all is_extra_write = true := by
  unfold effect_requested_writes at h
  cases heff : args.effect with
  | none =>
      rw [heff] at h
      have hws : ws = [] := (Except.ok.inj h).symm
      rw [hws]; rfl
  | some effect =>
      rw [heff] at h
      cases hidx : effect_list.findIdx? (· == effect) with
      | none => simp only [hidx] at h; exact Except.noConfusion h
      | some effect_idx =>
          simp only [hidx] at h
          have hws : ws = [("program", HmValue.i (effect_idx : Int))] :=
            (Except.ok.inj h).symm
          rw [hws]; simp [is_extra_write]

/-- C5 (amended): for every light kind, `turn_on` processes its optional
arguments in the order: kind-specific color/temperature/effect writes FIRST
(each subclass issues its own writes before delegating to
`BaseHmLight.turn_on` via `super()`), then the ramp-time write if present,
then the on-time write if present, then the brightness (level) write last;
and the brightness write is skipped only if no brightness-affecting argument
was supplied and the target brightness already equals the current
brightness. -/
theorem turn_on_write_order :
    ∀ (k : LightKind) (st : LightState) (args : TurnOnArgs) (ws : List FieldWrite),
    turn_on_writes k st args = .ok ws →
    ∃ e r t l, ws = e ++ r ++ t ++ l ∧
      e.all is_extra_write = true ∧ r.all is_ramp_write = true ∧
      t.all is_on_time_write = true ∧ l.all is_level_write = true ∧
      (r ≠ [] ↔ args.ramp_time.isSome = true) ∧
      (t ≠ [] ↔ args.on_time.isSome = true) ∧
      (l = [] → args.brightness = none ∧
        (let b0 := args.brightness.getD (ceDimmer_brightness st)
         (if b0 = 0 then 255 else b0) = ceDimmer_brightness st)) := by
  have hbra : ∀ x : Rat, (base_set_ramp_time_value x).all is_ramp_write = true :=
    fun x => by simp [base_set_ramp_time_value, is_ramp_write]
  have hbta : ∀ x : Rat, (base_set_on_time_value x).all is_on_time_write = true :=
    fun x => by simp [base_set_on_time_value, is_on_time_write]
  have hbrn : ∀ x : Rat, base_set_ramp_time_value x ≠ [] :=
    fun x => by simp [base_set_ramp_time_value]
  have hbtn : ∀ x : Rat, base_set_on_time_value x ≠ [] :=
    fun x => by simp [base_set_on_time_value]
  have hfra : ∀ x : Rat, (fixed_set_ramp_time_value x).all is_ramp_write = true :=
    fun x => by simp [fixed_set_ramp_time_value, is_ramp_write]
  have hfta : ∀ x : Rat, (fixed_set_on_time_value x).all is_on_time_write = true :=
    fun x => by simp [fixed_set_on_time_value, is_on_time_write]
  have hfrn : ∀ x : Rat, fixed_set_ramp_time_value x ≠ [] :=
    fun x => by simp [fixed_set_ramp_time_value]
  have hftn : ∀ x : Rat, fixed_set_on_time_value x ≠ [] :=
    fun x => by simp [fixed_set_on_time_value]
  intro k st args ws hws
  cases k with
  | dimmer =>
      obtain ⟨r, t, l, hdec, hr, ht, hl, hrne, htne, hskip⟩ :=
        base_turn_on_decomp base_set_ramp_time_value base_set_on_time_value
          (ceDimmer_brightness st) args hbra hbta hbrn hbtn
      simp only [turn_on_writes] at hws
      have hws' : ws = ceDimmer_turn_on st args := (Except.ok.inj hws).symm
      refine ⟨[], r, t, l, ?_, rfl, hr, ht, hl, hrne, htne, hskip⟩
      rw [hws']
      unfold ceDimmer_turn_on
      rw [hdec, List.nil_append]
  | colorDimmer =>
      obtain ⟨r, t, l, hdec, hr, ht, hl, hrne, htne, hskip⟩ :=
        base_turn_on_decomp base_set_ramp_time_value base_set_on_time_value
          (ceDimmer_brightness st) args hbra hbta hbrn hbtn
      simp only [turn_on_writes] at hws
      have hws' : ws = ceColorDimmer_turn_on st args := (Except.ok.inj hws).symm
      refine ⟨(match args.hs_color with
               | some hs => [("color", HmValue.i (ceColorDimmer_color_code hs))]
               | none => []), r, t, l, ?_, ?_, hr, ht, hl, hrne, htne, hskip⟩
      · rw [hws']
        unfold ceColorDimmer_turn_on ceDimmer_turn_on
        rw [hdec]
        simp [List.append_assoc]
      · cases args.hs_color <;> simp [is_extra_write]
  | colorDimmerEffect =>
      obtain ⟨r, t, l, hdec, hr, ht, hl, hrne, htne, hskip⟩ :=
        base_turn_on_decomp base_set_ramp_time_value base_set_on_time_value
          (ceDimmer_brightness st) args hbra hbta hbrn hbtn
      simp only [turn_on_writes] at hws
      unfold ceColorDimmerEffect_turn_on at hws
      cases hres : effect_reset_writes st args with
      | error e => rw [hres] at hws; cases hws
      | ok reset =>
          rw [hres] at hws
          cases hreq : effect_requested_writes args with
          | error e => rw [hreq] at hws; cases hws
          | ok requested =>
              rw [hreq] at hws
              have hws' : ws = reset ++ requested ++ ceColorDimmer_turn_on st args :=
                (Except.ok.inj hws).symm
              refine ⟨reset ++ requested ++
                  (match args.hs_color with
                   | some hs => [("color", HmValue.i (ceColorDimmer_color_code hs))]
                   | none => []), r, t, l, ?_, ?_, hr, ht, hl, hrne, htne, hskip⟩
              · rw [hws']
                unfold ceColorDimmer_turn_on ceDimmer_turn_on
                rw [hdec]
                simp [List.append_assoc]
              · simp only [List.all_append, Bool.and_eq_true]
                refine ⟨⟨effect_reset_writes_extra st args reset hres,
                  effect_requested_writes_extra args requested hreq⟩, ?_⟩
                cases args.hs_color <;> simp [is_extra_write]
  | colorTempDimmer =>
      obtain ⟨r, t, l, hdec, hr, ht, hl, hrne, htne, hskip⟩ :=
        base_turn_on_decomp base_set_ramp_time_value base_set_on_time_value
          (ceDimmer_brightness st) args hbra hbta hbrn hbtn
      simp only [turn_on_writes] at hws
      have hws' : ws = ceColorTempDimmer_turn_on st args := (Except.ok.inj hws).symm
      refine ⟨(match args.color_temp with
               | some color_temp =>
                   [("color_temp",
                     HmValue.q (((HM_MAX_MIREDS - color_temp : Int) : Rat) /
                       ((HM_MAX_MIREDS - HM_MIN_MIREDS : Int) : Rat)))]
               | none => []), r, t, l, ?_, ?_, hr, ht, hl, hrne, htne, hskip⟩
      · rw [hws']
        unfold ceColorTempDimmer_turn_on ceDimmer_turn_on
        rw [hdec]
        simp [List.append_assoc]
      · cases args.color_temp <;> simp [is_extra_write]
  | fixedColorLight =>
      obtain ⟨r, t, l, hdec, hr, ht, hl, hrne, htne, hskip⟩ :=
        base_turn_on_decomp fixed_set_ramp_time_value fixed_set_on_time_value
          (ceDimmer_brightness st) args hfra hfta hfrn hftn
      simp only [turn_on_writes] at hws
      have hws' : ws = ceIpFixedColorLight_turn_on st args := (Except.ok.inj hws).symm
      refine ⟨(match args.hs_color with
               | some hs => [("color", HmValue.s (convert_color (some hs)))]
               | none => []), r, t, l, ?_, ?_, hr, ht, hl, hrne, htne, hskip⟩
      · rw [hws']
        unfold ceIpFixedColorLight_turn_on
        rw [hdec]
        simp [List.append_assoc]
      · cases args.hs_color <;> simp [is_extra_write]

/-- C5 witness: `turn_on_write_order` applied to the plain dimmer with an
on-time argument of 7 seconds and no cached level. -/
theorem turn_on_write_order_witness :
    ∃ e r t l,
      ([(("on_time_value" : String), HmValue.q 7), ("level", HmValue.q 1)] :
        List FieldWrite) = e ++ r ++ t ++ l ∧
      e.all is_extra_write = true ∧ r.all is_ramp_write = true ∧
      t.all is_on_time_write = true ∧ l.all is_level_write = true := by
  have hws : turn_on_writes .dimmer {} { on_time := some 7 } =
      .ok [("on_time_value", HmValue.q 7), ("level", HmValue.q 1)] := by
    simp only [turn_on_writes, ceDimmer_turn_on, base_turn_on, ceDimmer_brightness,
      pyTrunc, TurnOnArgs.nonempty, base_set_on_time_value, base_set_ramp_time_value]
    norm_num
  obtain ⟨e, r, t, l, heq, he, hr, ht, hl, -, -, -⟩ :=
    turn_on_write_order .dimmer {} { on_time := some 7 } _ hws
  exact ⟨e, r, t, l, heq, he, hr, ht, hl⟩

/-! ## C2: idempotence of the factory

The factory run is re-expressed as a fold over the flattened list of
(rebased device group, channel number) pairs; idempotence follows because
each step's effect on the catalog depends on the catalog state only through
membership of the step's unique identifier. -/

/-- The effect of `_create_entities` on the registered-identifier list alone. -/
def registered_after (bind : DataEntityCount) (device : HmDevice)
    (device_def : DeviceGroup) (entity_def : AdditionalEntities)
    (channel_no : Int) (st : List String) : List String :=
  if generate_unique_identifier (channel_address device channel_no) ∈ st then st
  else if channel_address device channel_no ∉ device.channels then st
  else if 0 < bind device_def entity_def channel_no then
    st ++ [generate_unique_identifier (channel_address device channel_no)]
  else st

theorem create_entities_registered (bind : DataEntityCount) (device : HmDevice)
    (device_def : DeviceGroup) (entity_def : AdditionalEntities)
    (channel_no : Int) (acc : FactoryResult) :
    (create_entities bind device device_def entity_def channel_no acc).registered =
      registered_after bind device device_def entity_def channel_no acc.registered := by
  unfold create_entities registered_after
  by_cases h1 : generate_unique_identifier (channel_address device channel_no) ∈
      acc.registered
  · simp [h1]
  · by_cases h2 : channel_address device channel_no ∉ device.channels
    · simp [h1, h2]
    · by_cases h3 : 0 < bind device_def entity_def channel_no
      · simp [h1, h2, h3]
      · simp [h1, h2, h3]

/-- `_create_entities` appends the same suffix to the registered list and to
the created list (the entity's identifier when it registers, nothing
otherwise). -/
theorem create_entities_growth (bind : DataEntityCount) (device : HmDevice)
    (device_def : DeviceGroup) (entity_def : AdditionalEntities)
    (channel_no : Int) (acc : FactoryResult) :
    ∃ l, (create_entities bind device device_def entity_def channel_no acc).registered =
        acc.registered ++ l ∧
      (create_entities bind device device_def entity_def channel_no acc).created =
        acc.created ++ l := by
  unfold create_entities
  by_cases h1 : generate_unique_identifier (channel_address device channel_no) ∈
      acc.registered
  · exact ⟨[], by simp [h1]⟩
  · by_cases h2 : channel_address device channel_no ∉ device.channels
    · exact ⟨[], by simp [h1, h2]⟩
    · by_cases h3 : 0 < bind device_def entity_def channel_no
      · exact ⟨[generate_unique_identifier (channel_address device channel_no)],
          by simp [h1, h2, h3]⟩
      · exact ⟨[], by simp [h1, h2, h3]⟩

/-- One step either already contains / adds its unique identifier to the
state, or is inert on every state. -/
theorem registered_after_mem_or_inert (bind : DataEntityCount) (device : HmDevice)
    (device_def : DeviceGroup) (entity_def : AdditionalEntities) (channel_no : Int)
    (st : List String) :
    generate_unique_identifier (channel_address device channel_no) ∈
        registered_after bind device device_def entity_def channel_no st ∨
      (∀ t, registered_after bind device device_def entity_def channel_no t = t) := by
  by_cases h2 : channel_address device channel_no ∉ device.channels
  · refine .inr fun t => ?_
    unfold registered_after
    by_cases h1 : generate_unique_identifier (channel_address device channel_no) ∈ t
    · simp [h1]
    · simp [h1, h2]
  · by_cases h3 : 0 < bind device_def entity_def channel_no
    · refine .inl ?_
      unfold registered_after
      by_cases h1 : generate_unique_identifier (channel_address device channel_no) ∈ st
      · simp [h1]
      · simp [h1, h2, h3]
    · refine .inr fun t => ?_
      unfold registered_after
      by_cases h1 : generate_unique_identifier (channel_address device channel_no) ∈ t
      · simp [h1]
      · simp [h1, h2, h3]

/-- A step whose unique identifier is already registered is a no-op. -/
theorem registered_after_of_mem (bind : DataEntityCount) (device : HmDevice)
    (device_def : DeviceGroup) (entity_def : AdditionalEntities) (channel_no : Int)
    (t : List String)
    (h : generate_unique_identifier (channel_address device channel_no) ∈ t) :
    registered_after bind device device_def entity_def channel_no t = t := by
  unfold registered_after
  simp [h]

/-- Each step preserves the state as a prefix. -/
theorem registered_after_sublist (bind : DataEntityCount) (device : HmDevice)
    (device_def : DeviceGroup) (entity_def : AdditionalEntities) (channel_no : Int)
    (st : List String) :
    st ⊆ registered_after bind device device_def entity_def channel_no st := by
  unfold registered_after
  by_cases h1 : generate_unique_identifier (channel_address device channel_no) ∈ st
  · simp [h1]
  · by_cases h2 : channel_address device channel_no ∉ device.channels
    · simp [h1, h2]
    · by_cases h3 : 0 < bind device_def entity_def channel_no
      · simp only [h1, h2, h3, if_true, if_false, if_neg, ite_true, ite_false]
        exact fun x hx => List.mem_append_left _ hx
      · simp [h1, h2, h3]

/-- Each step preserves distinctness of the registered identifiers (the
identifier is appended only when it is not yet a member). -/
theorem registered_after_nodup (bind : DataEntityCount) (device : HmDevice)
    (device_def : DeviceGroup) (entity_def : AdditionalEntities) (channel_no : Int)
    (st : List String) (h : st.Nodup) :
    (registered_after bind device device_def entity_def channel_no st).Nodup := by
  unfold registered_after
  by_cases h1 : generate_unique_identifier (channel_address device channel_no) ∈ st
  · simpa [h1] using h
  · by_cases h2 : channel_address device channel_no ∉ device.channels
    · simpa [h1, h2] using h
    · by_cases h3 : 0 < bind device_def entity_def channel_no
      · simp only [h1, h2, h3, if_false, if_true, ite_true, ite_false]
        rw [List.nodup_append]
        exact ⟨h, List.nodup_singleton _, by
          intro x hx hx'
          rw [List.mem_singleton.mp hx'] at hx
          exact h1 hx⟩
      · simpa [h1, h2, h3] using h

/-- The factory run over an explicit list of (device group, channel) pairs. -/
def run_flat (bind : DataEntityCount) (device : HmDevice)
    (entity_def : AdditionalEntities) :
    List (DeviceGroup × Int) → FactoryResult → FactoryResult
  | [], acc => acc
  | p :: rest, acc =>
      run_flat bind device entity_def rest
        (create_entities bind device p.1 entity_def p.2 acc)

/-- The registered-list projection of `run_flat`. -/
def registered_run (bind : DataEntityCount) (device : HmDevice)
    (entity_def : AdditionalEntities) :
    List (DeviceGroup × Int) → List String → List String
  | [], st => st
  | p :: rest, st =>
      registered_run bind device entity_def rest
        (registered_after bind device p.1 entity_def p.2 st)

theorem run_flat_registered (bind : DataEntityCount) (device : HmDevice)
    (entity_def : AdditionalEntities) :
    ∀ (ps : List (DeviceGroup × Int)) (acc : FactoryResult),
    (run_flat bind device entity_def ps acc).registered =
      registered_run bind device entity_def ps acc.registered := by
  intro ps
  induction ps with
  | nil => intro acc; rfl
  | cons p rest ih =>
      intro acc
      show (run_flat bind device entity_def rest _).registered = _
      rw [ih, create_entities_registered]
      rfl

theorem run_flat_growth (bind : DataEntityCount) (device : HmDevice)
    (entity_def : AdditionalEntities) :
    ∀ (ps : List (DeviceGroup × Int)) (acc : FactoryResult),
    ∃ l, (run_flat bind device entity_def ps acc).registered = acc.registered ++ l ∧
      (run_flat bind device entity_def ps acc).created = acc.created ++ l := by
  intro ps
  induction ps with
  | nil => exact fun acc => ⟨[], by simp [run_flat]⟩
  | cons p rest ih =>
      intro acc
      obtain ⟨l1, hr1, hc1⟩ :=
        create_entities_growth bind device p.1 entity_def p.2 acc
      obtain ⟨l2, hr2, hc2⟩ :=
        ih (create_entities bind device p.1 entity_def p.2 acc)
      refine ⟨l1 ++ l2, ?_, ?_⟩
      · show (run_flat bind device entity_def rest _).registered = _
        rw [hr2, hr1, List.append_assoc]
      · show (run_flat bind device entity_def rest _).created = _
        rw [hc2, hc1, List.append_assoc]

theorem registered_run_subset (bind : DataEntityCount) (device : HmDevice)
    (entity_def : AdditionalEntities) :
    ∀ (ps : List (DeviceGroup × Int)) (st : List String),
    st ⊆ registered_run bind device entity_def ps st := by
  intro ps
  induction ps with
  | nil => exact fun st x hx => hx
  | cons p rest ih =>
      intro st
      exact fun x hx => ih _ (registered_after_sublist bind device p.1 entity_def p.2 st hx)

theorem registered_run_nodup (bind : DataEntityCount) (device : HmDevice)
    (entity_def : AdditionalEntities) :
    ∀ (ps : List (DeviceGroup × Int)) (st : List String), st.Nodup →
    (registered_run bind device entity_def ps st).Nodup := by
  intro ps
  induction ps with
  | nil => exact fun st h => h
  | cons p rest ih =>
      intro st h
      exact ih _ (registered_after_nodup bind device p.1 entity_def p.2 st h)

/-- After the first run, every listed step either has its identifier in the
final state or is inert on every state. -/
theorem registered_run_saturates (bind : DataEntityCount) (device : HmDevice)
    (entity_def : AdditionalEntities) :
    ∀ (ps : List (DeviceGroup × Int)) (st : List String), ∀ p ∈ ps,
    generate_unique_identifier (channel_address device p.2) ∈
        registered_run bind device entity_def ps st ∨
      (∀ t, registered_after bind device p.1 entity_def p.2 t = t) := by
  intro ps
  induction ps with
  | nil => intro st p hp; cases hp
  | cons q rest ih =>
      intro st p hp
      rcases List.mem_cons.mp hp with rfl | hp'
      · rcases registered_after_mem_or_inert bind device p.1 entity_def p.2 st with h | h
        · exact .inl (registered_run_subset bind device entity_def rest _ h)
        · exact .inr h
      · exact ih _ p hp'

/-- A state containing (or inert under) every listed step is a fixed point of
the run. -/
theorem registered_run_fixed (bind : DataEntityCount) (device : HmDevice)
    (entity_def : AdditionalEntities) :
    ∀ (ps : List (DeviceGroup × Int)) (T : List String),
    (∀ p ∈ ps,
      generate_unique_identifier (channel_address device p.2) ∈ T ∨
        (∀ t, registered_after bind device p.1 entity_def p.2 t = t)) →
    registered_run bind device entity_def ps T = T := by
  intro ps
  induction ps with
  | nil => intro T _; rfl
  | cons q rest ih =>
      intro T h
      have hq : registered_after bind device q.1 entity_def q.2 T = T := by
        rcases h q (List.mem_cons_self q rest) with h' | h'
        · exact registered_after_of_mem bind device q.1 entity_def q.2 T h'
        · exact h' T
      show registered_run bind device entity_def rest
        (registered_after bind device q.1 entity_def q.2 T) = T
      rw [hq]
      exact ih T fun p hp => h p (List.mem_cons_of_mem q hp)

/-- Running the flattened factory fold a second time changes nothing. -/
theorem registered_run_idempotent (bind : DataEntityCount) (device : HmDevice)
    (entity_def : AdditionalEntities) (ps : List (DeviceGroup × Int))
    (st : List String) :
    registered_run bind device entity_def ps
        (registered_run bind device entity_def ps st) =
      registered_run bind device entity_def ps st :=
  registered_run_fixed bind device entity_def ps _
    (registered_run_saturates bind device entity_def ps st)

/-- The per-base-channel device groups of a factory run, when none of the
rebasing lookups raises. -/
def group_plan (k : EntityDefinition) : List Int → Except String (List DeviceGroup)
  | [] => .ok []
  | b :: rest =>
      match get_device_group k b with
      | .error e => .error e
      | .ok dd =>
          match group_plan k rest with
          | .error e => .error e
          | .ok dds => .ok (dd :: dds)

/-- The flattened (device group, channel) pairs of a plan. -/
def flat_pairs (dds : List DeviceGroup) : List (DeviceGroup × Int) :=
  dds.flatMap (fun dd => (channels_of dd).map (fun c => (dd, c)))

theorem run_flat_append (bind : DataEntityCount) (device : HmDevice)
    (entity_def : AdditionalEntities) :
    ∀ (ps qs : List (DeviceGroup × Int)) (acc : FactoryResult),
    run_flat bind device entity_def (ps ++ qs) acc =
      run_flat bind device entity_def qs (run_flat bind device entity_def ps acc) := by
  intro ps
  induction ps with
  | nil => intro qs acc; rfl
  | cons p rest ih => intro qs acc; exact ih qs _

theorem run_channels_eq_flat (bind : DataEntityCount) (device : HmDevice)
    (device_def : DeviceGroup) (entity_def : AdditionalEntities) :
    ∀ (cs : List Int) (acc : FactoryResult),
    run_channels bind device device_def entity_def cs acc =
      run_flat bind device entity_def (cs.map (fun c => (device_def, c))) acc := by
  intro cs
  induction cs with
  | nil => intro acc; rfl
  | cons c rest ih => intro acc; exact ih _

/-- `run_base_channels` is the flattened fold over the group plan. -/
theorem run_base_channels_eq_plan (bind : DataEntityCount) (device : HmDevice)
    (k : EntityDefinition) (entity_def : AdditionalEntities) :
    ∀ (bs : List Int) (acc : FactoryResult),
    run_base_channels bind device k entity_def bs acc =
      match group_plan k bs with
      | .error e => .error e
      | .ok dds => .ok (run_flat bind device entity_def (flat_pairs dds) acc) := by
  intro bs
  induction bs with
  | nil => intro acc; rfl
  | cons b rest ih =>
      intro acc
      unfold run_base_channels group_plan
      cases hg : get_device_group k b with
      | error e => rfl
      | ok dd =>
          dsimp only
          rw [ih]
          cases hp : group_plan k rest with
          | error e => rfl
          | ok dds =>
              dsimp only
              congr 1
              rw [run_channels_eq_flat]
              exact (run_flat_append bind device entity_def
                ((channels_of dd).map (fun c => (dd, c))) (flat_pairs dds) acc).symm

/-- C2: composition is idempotent.  If `make_custom_entity` succeeds from a
catalog state `st`, the registered identifiers stay duplicate-free (exactly
one registered entity per unique identifier), and invoking the factory a
second time with the same arguments from the resulting catalog state
registers no additional entity and produces no registration side effect:
the catalog is unchanged and the second call returns no entities. -/
theorem make_custom_entity_idempotent :
    ∀ (bind : DataEntityCount) (device : HmDevice) (k : EntityDefinition)
      (bcs : List Int) (st : List String) (r : FactoryResult),
    make_custom_entity bind device k bcs st = .ok r →
    (st.Nodup → r.registered.Nodup) ∧
    ∃ r2, make_custom_entity bind device k bcs r.registered = .ok r2 ∧
      r2.registered = r.registered ∧ r2.created = [] := by
  intro bind device k bcs st r hr
  cases bcs with
  | nil => cases hr
  | cons b0 rest =>
      unfold make_custom_entity at hr ⊢
      dsimp only at hr ⊢
      rw [run_base_channels_eq_plan] at hr
      cases hplan : group_plan k (b0 :: rest) with
      | error e => rw [hplan] at hr; cases hr
      | ok dds =>
          rw [hplan] at hr
          dsimp only at hr
          have hr' : r = run_flat bind device (get_device_entities k b0)
              (flat_pairs dds) ⟨st, [], []⟩ := (Except.ok.inj hr).symm
          have hreg : r.registered =
              registered_run bind device (get_device_entities k b0)
                (flat_pairs dds) st := by
            rw [hr', run_flat_registered]
          constructor
          · intro hnd
            rw [hreg]
            exact registered_run_nodup bind device (get_device_entities k b0)
              (flat_pairs dds) st hnd
          · rw [run_base_channels_eq_plan, hplan]
            dsimp only
            refine ⟨run_flat bind device (get_device_entities k b0)
                (flat_pairs dds) ⟨r.registered, [], []⟩, rfl, ?_, ?_⟩
            · rw [run_flat_registered, hreg]
              exact registered_run_idempotent bind device
                (get_device_entities k b0) (flat_pairs dds) st
            · obtain ⟨l2, hrl, hcl⟩ := run_flat_growth bind device
                (get_device_entities k b0) (flat_pairs dds) ⟨r.registered, [], []⟩
              have hreg2 : (run_flat bind device (get_device_entities k b0)
                  (flat_pairs dds) ⟨r.registered, [], []⟩).registered =
                    r.registered := by
                rw [run_flat_registered, hreg]
                exact registered_run_idempotent bind device
                  (get_device_entities k b0) (flat_pairs dds) st
              have hl2 : l2 = [] := by
                have h0 : r.registered ++ l2 = r.registered ++ [] := by
                  rw [List.append_nil]
                  exact hrl.symm.trans hreg2
                exact List.append_cancel_left h0
              rw [hcl, hl2]
              rfl

/-- C2 witness: the `RF_DIMMER` group rebased to base channel 1 (as built by
the concrete run below). -/
def rf_dimmer_rebased : DeviceGroup :=
  { primary_channel := 1
    repeatable_fields := [("level", "LEVEL"), ("on_time_value", "ON_TIME"),
                          ("ramp_time_value", "RAMP_TIME")]
    fields := some []
    visible_fields := some [] }

/-- The result of composing `RF_DIMMER` at base channel 1 on a device with
channel `A:1`, starting from an empty catalog. -/
def rf_dimmer_result : FactoryResult :=
  ⟨["A:1"], ["A:1"], [⟨1, rf_dimmer_rebased, []⟩]⟩

/-- C2 witness: `make_custom_entity_idempotent` applied to a concrete
`RF_DIMMER` run; the second call leaves the catalog at `["A:1"]` and creates
nothing. -/
theorem make_custom_entity_idempotent_witness :
    ∃ r2, make_custom_entity (fun _ _ _ => 1) ⟨"A", ["A:1"]⟩
        EntityDefinition.RF_DIMMER [1] rf_dimmer_result.registered = .ok r2 ∧
      r2.registered = ["A:1"] ∧ r2.created = [] := by
  obtain ⟨-, r2, h2, hreg, hcr⟩ :=
    make_custom_entity_idempotent (fun _ _ _ => 1) ⟨"A", ["A:1"]⟩
      EntityDefinition.RF_DIMMER [1] [] rf_dimmer_result rfl
  exact ⟨r2, h2, hreg, hcr⟩

end Hahomematic
